import Mathlib

/-!
Verification of the social-ads-analytics ETL pipeline
(`main.py`, `src/collector.py`, `src/meta_client.py`,
`src/loaders/bigquery_loader.py`) against its specification.

Shallow embedding conventions:
* Calendar dates are `Int` day numbers (days since the UNIX epoch).
* UNIX timestamps are `Int` epoch seconds.
* The run timestamp `extracted_at` (a `pd.Timestamp` in the source) is an
  opaque `Nat`: only identity of the stamp matters to the claims.
* A `zoneinfo.ZoneInfo` time zone is modelled by its two offset lookups:
  `offsetOfLocal t` is the UTC offset (in seconds) the zone assigns when an
  aware local wall-clock instant with naive epoch-seconds `t` is converted
  to a timestamp (`datetime(...).timestamp()`), and `offsetOfUtc t` is the
  offset in effect at UTC epoch instant `t` when converting back
  (`datetime.fromtimestamp(t, tz)`).  On days without a DST transition the
  two midnight lookups agree; across a transition they differ, which is
  exactly the behaviour of CPython's `zoneinfo`.
* The Meta Graph API fetchers (`meta_client.py`) perform an HTTP GET and
  flatten the JSON; the pipeline claims only depend on the flattened record
  lists, so each fetcher is a parameter supplying those records.  The
  access-token plumbing (`get_page_token`, the `access_token` request
  parameter) does not influence any row shaping and is omitted, except in
  `dayTotalsRequestParams`, which embeds the literal request-parameter
  construction of `get_day_totals_by_media_product`.
* A pandas `DataFrame` is a list of rows of a fixed record type; for the
  ads table, where the empty-frame column schema matters, the frame also
  carries its column-name list (`AdsDF`).
-/

/-- Opaque run timestamp (models a `pd.Timestamp`). -/
abbrev TS := Nat

/-- A time zone, modelled by its two offset lookup directions (see the
module docstring). -/
structure ZoneInfo where
  offsetOfLocal : Int → Int
  offsetOfUtc : Int → Int

/-- Epoch seconds of local midnight of day `d` in zone `tz`: the value of
`datetime.combine(d, time(0, 0, 0), tzinfo=tz).timestamp()`, and equally the
spec's "epoch-seconds of D 00:00 in zone Z". -/
def epochOfLocalMidnight (d : Int) (tz : ZoneInfo) : Int :=
  d * 86400 - tz.offsetOfLocal (d * 86400)

/-- Embeds `datetime.fromtimestamp(ts, tz).date()` as a day number. -/
def dateFromTimestamp (ts : Int) (tz : ZoneInfo) : Int :=
  (ts + tz.offsetOfUtc ts).fdiv 86400

/-- Embeds `collector._day_window_ts`: `since_dt` is aware local midnight of `d`,
`until_dt = since_dt + timedelta(days=1)` is aware local midnight of `d + 1`
(Python's aware-datetime addition is wall-clock addition), and each is
converted with `.timestamp()`, i.e. with the offset the zone assigns to that
wall-clock instant. -/
def _day_window_ts (d : Int) (tz : ZoneInfo) : Int × Int :=
  (d * 86400 - tz.offsetOfLocal (d * 86400),
   (d + 1) * 86400 - tz.offsetOfLocal ((d + 1) * 86400))

/-! ## Demographics (collector.collect_demographics / meta_client.get_demo) -/

/-- One flattened record returned by `get_demo`
(`{"dimension_value": ..., "value": ...}`); either entry may be `None`. -/
structure DemoRec where
  dimension_value : Option String
  value : Option Int
deriving DecidableEq, Repr

/-- One row appended by `collect_demographics`. -/
structure DemoRow where
  metric : String
  timeframe : String
  dimension : String
  dimension_value : Option String
  value : Option Int
deriving DecidableEq, Repr

/-- A demographics row after the Runner's `df_demo["extracted_at"] =
extracted_at` column assignment. -/
structure DemoRowE where
  row : DemoRow
  extracted_at : TS
deriving DecidableEq, Repr

/-- The iteration order of `itertools.product(metrics, timeframes,
dimensions)`: all (metric, timeframe, dimension) triples, outermost loop on
the metric. -/
def tripleList (ms ts ds : List String) : List (String × String × String) :=
  ms ×ˢ ts ×ˢ ds

/-- Embeds `collector.collect_demographics`: one `get_demo` call per triple of the
cross-product, each returned record appended as a row annotated with the
triple. -/
def collect_demographics (ms ts ds : List String)
    (fetch : String → String → String → List DemoRec) : List DemoRow :=
  (tripleList ms ts ds).flatMap fun p =>
    (fetch p.1 p.2.1 p.2.2).map fun r =>
      { metric := p.1, timeframe := p.2.1, dimension := p.2.2,
        dimension_value := r.dimension_value, value := r.value }

/-- Embeds `df_demo["extracted_at"] = extracted_at` in `main.py`. -/
def assignExtractedAt (rows : List DemoRow) (ea : TS) : List DemoRowE :=
  rows.map fun r => { row := r, extracted_at := ea }

/-! ## Daily media-product totals
(collector.collect_day_media_product / meta_client.get_day_totals_by_media_product) -/

/-- One flattened record of `get_day_totals_by_media_product`
(`{"media_product_type": ..., "value": ...}`). -/
structure MediaRec where
  media_product_type : Option String
  value : Option Int
deriving DecidableEq, Repr

/-- One row appended by `collect_day_media_product`. -/
structure MediaRow where
  metric_date : Int
  metric : String
  period : String
  metric_type : String
  breakdown : String
  extracted_at : TS
  since : Option Int
  until_ : Option Int  -- `until` is a Lean keyword; source column name is `until`
  dimension_value : Option String
  value : Option Int
deriving DecidableEq, Repr

/-- Python truthiness of an optional integer (`if since:`): `None` and `0`
are both falsy. -/
def pyTruthy (o : Option Int) : Bool :=
  match o with
  | none => false
  | some v => v != 0

/-- The request-parameter dict built by
`meta_client.get_day_totals_by_media_product` (lines 92-103): the base
parameters, then `params["since"] = since` guarded by `if since:` and
`params["until"] = until` guarded by `if until:`. -/
def dayTotalsRequestParams (metric_name : String) (since until_ : Option Int)
    (page_token : String) : List (String × String) :=
  let base := [("metric", metric_name), ("metric_type", "total_value"),
    ("period", "day"), ("breakdown", "media_product_type"),
    ("access_token", page_token)]
  let withSince :=
    if pyTruthy since then base ++ [("since", toString (since.getD 0))] else base
  if pyTruthy until_ then withSince ++ [("until", toString (until_.getD 0))]
  else withSince

/-- Embeds `DEFAULT_MEDIA_PRODUCT_METRICS` of `collector.py`. -/
def DEFAULT_MEDIA_PRODUCT_METRICS : List String :=
  ["reach", "likes", "shares", "comments", "saves", "views",
   "total_interactions"]

/-- Embeds `collector.collect_day_media_product`.  `nowDate` is
`datetime.now(tz).date()`; `defaultEA` is the timestamp the collector would
stamp when `extracted_at is None`.  `metric_date` comes from `since` when
`since is not None` (even `0`), else defaults to yesterday; `metrics or
DEFAULT_MEDIA_PRODUCT_METRICS` is Python truthiness, so an empty metric list
also selects the default pack. -/
def collect_day_media_product (since until_ : Option Int)
    (fetch : String → Option Int → Option Int → List MediaRec)
    (metrics : Option (List String)) (nowDate : Int) (tz : ZoneInfo)
    (defaultEA : TS) (extracted_at : Option TS) : List MediaRow :=
  let ea := extracted_at.getD defaultEA
  let metric_date :=
    match since with
    | some v => dateFromTimestamp v tz
    | none => nowDate - 1
  let mets :=
    match metrics with
    | some l => if l.isEmpty then DEFAULT_MEDIA_PRODUCT_METRICS else l
    | none => DEFAULT_MEDIA_PRODUCT_METRICS
  mets.flatMap fun metric =>
    (fetch metric since until_).map fun r =>
      { metric_date := metric_date, metric := metric, period := "day",
        metric_type := "total_value", breakdown := "media_product_type",
        extracted_at := ea, since := since, until_ := until_,
        dimension_value := r.media_product_type, value := r.value }

/-! ## Follows / unfollows
(collector.collect_follows_unfollows_yesterday / meta_client.get_follows_and_unfollows_by_day) -/

/-- One flattened record of `get_follows_and_unfollows_by_day`
(`{"follow_type": ..., "value": ...}`); the synthesized zero rows also have
this shape. -/
structure FollowRec where
  follow_type : Option String
  value : Option Int
deriving DecidableEq, Repr

/-- One row of the `fact_instagram_follows_unfollows_day` table. -/
structure FollowRow where
  metric_date : Int
  metric : String
  follow_type : Option String
  value : Option Int
  since : Int
  until_ : Int  -- `until` is a Lean keyword; source column name is `until`
  extracted_at : TS
deriving DecidableEq, Repr

/-- Embeds `collector.collect_follows_unfollows_yesterday`: computes yesterday's
window via `_day_window_ts`, fetches, zero-fills an empty result with the
two `FOLLOWER`/`NON_FOLLOWER` rows, and maps each record to a row.  The
trailing `.reindex(columns=[...])` selects exactly the seven columns every
row dict already has, in the order they already appear, so it is the
identity on this frame and is not modelled separately. -/
def collect_follows_unfollows_yesterday
    (fetch : Int → Int → List FollowRec) (nowDate : Int) (tz : ZoneInfo)
    (defaultEA : TS) (extracted_at : Option TS) : List FollowRow :=
  let ea := extracted_at.getD defaultEA
  let yesterday := nowDate - 1
  let w := _day_window_ts yesterday tz
  let data := fetch w.1 w.2
  let data :=
    if data.isEmpty then
      [{ follow_type := some "FOLLOWER", value := some 0 },
       { follow_type := some "NON_FOLLOWER", value := some 0 }]
    else data
  data.map fun r =>
    { metric_date := yesterday, metric := "follows_and_unfollows",
      follow_type := r.follow_type, value := r.value,
      since := w.1, until_ := w.2, extracted_at := ea }

/-! ## Followers snapshot
(collector.collect_followers_snapshot_daily / meta_client.get_followers_count) -/

/-- The JSON object returned by the followers-count endpoint, reduced to the
only field the client inspects: `followers_count`, or `none` when the field
is absent from the response. -/
structure FollowersResp where
  followers_count : Option Int
deriving DecidableEq, Repr

/-- Embeds `meta_client.get_followers_count`: raises (here `.error`) when
`"followers_count" not in data`, else returns `int(data["followers_count"])`.
The source message interpolates the response (`f"... : {data}"`); the model
keeps the fixed prefix. -/
def get_followers_count (resp : FollowersResp) : Except String Int :=
  match resp.followers_count with
  | none => .error "followers_count não veio na resposta"
  | some v => .ok v

/-- One row of the `fact_instagram_account_daily` table. -/
structure FollowersRow where
  metric_date : Int
  ig_user_id : String
  followers_count : Int
  extracted_at : TS
deriving DecidableEq, Repr

/-- Embeds `collector.collect_followers_snapshot_daily`: snapshot date is today in
`tz`; a raise from `get_followers_count` propagates; otherwise exactly one
row is built. -/
def collect_followers_snapshot_daily (resp : FollowersResp)
    (ig_user_id : String) (nowDate : Int) (defaultEA : TS)
    (extracted_at : Option TS) : Except String (List FollowersRow) :=
  let ea := extracted_at.getD defaultEA
  let metric_date := nowDate
  (get_followers_count resp).map fun followers =>
    [{ metric_date := metric_date, ig_user_id := ig_user_id,
       followers_count := followers, extracted_at := ea }]

/-! ## Ads spend
(collector.collect_ads_spend_yesterday / meta_client.get_ad_account_info,
get_ads_insights_daily) -/

/-- The two fields of `get_ad_account_info` the collector reads
(`info.get("currency")`, `info.get("timezone_name")`). -/
structure AdInfo where
  currency : Option String
  timezone_name : Option String
deriving DecidableEq, Repr

/-- One record of `get_ads_insights_daily` with the fields the collector
reads.  `spend` is a numeric in the source (`float(...)`); claims never
involve fractional arithmetic, so it is carried as `Int`. -/
structure AdsRec where
  date_start : Option Int
  date_stop : Option Int
  spend : Option Int
  impressions : Option Int
  clicks : Option Int
deriving DecidableEq, Repr

/-- One row of the `fact_ads_daily` table. -/
structure AdsRow where
  metric_date : Option Int
  ad_account_id : String
  level : String
  currency : Option String
  timezone_name : Option String
  spend : Int
  impressions : Int
  clicks : Int
  extracted_at : TS
deriving DecidableEq, Repr

/-- A pandas frame for the ads table: its column-name list (which survives
even with zero rows, via `pd.DataFrame(columns=[...])`) plus its rows. -/
structure AdsDF where
  columns : List String
  rows : List AdsRow
deriving DecidableEq, Repr

/-- The ads-table column list, as written both in the empty-frame
constructor and (as dict-key order) in the row dicts of
`collect_ads_spend_yesterday`. -/
def adsColumns : List String :=
  ["metric_date", "ad_account_id", "level", "currency", "timezone_name",
   "spend", "impressions", "clicks", "extracted_at"]

/-- Embeds `collector.collect_ads_spend_yesterday`.  `ad_account_id` is the
`META_AD_ACCOUNT_ID` environment value (`none` when unset); `if not
ad_account_id:` is Python truthiness, so the empty string is also fatal.
`infoFetch` is `get_ad_account_info`, `insightsFetch since until` is
`get_ads_insights_daily` over the `[yesterday, today)` date range (dates as
day numbers in the ads-account zone).  An empty insights result yields the
explicitly-columned empty frame; otherwise one row per record with
`x or 0` defaulting (`Option.getD 0`). -/
def collect_ads_spend_yesterday (ad_account_id : Option String)
    (infoFetch : String → AdInfo) (insightsFetch : Int → Int → List AdsRec)
    (nowDate : Int) (defaultEA : TS) (extracted_at : Option TS) :
    Except String AdsDF :=
  let ea := extracted_at.getD defaultEA
  match ad_account_id with
  | none => .error "Faltou META_AD_ACCOUNT_ID nos env/secrets."
  | some acct =>
    if acct.isEmpty then .error "Faltou META_AD_ACCOUNT_ID nos env/secrets."
    else
      let today := nowDate
      let yesterday := today - 1
      let info := infoFetch acct
      let data := insightsFetch yesterday today
      if data.isEmpty then .ok { columns := adsColumns, rows := [] }
      else
        .ok { columns := adsColumns,
              rows := data.map fun r =>
                { metric_date := r.date_start, ad_account_id := acct,
                  level := "account", currency := info.currency,
                  timezone_name := info.timezone_name,
                  spend := r.spend.getD 0,
                  impressions := r.impressions.getD 0,
                  clicks := r.clicks.getD 0, extracted_at := ea } }

/-! ## Pipeline Runner (main.py) -/

/-- Embeds `DEMOGRAPHICS_METRICS` of `main.py`. -/
def DEMOGRAPHICS_METRICS : List String :=
  ["follower_demographics", "engaged_audience_demographics",
   "reached_audience_demographics"]

/-- Embeds `TIMEFRAMES` of `main.py`. -/
def TIMEFRAMES : List String := ["this_week", "this_month"]

/-- Embeds `DIMENSIONS` of `main.py`. -/
def DIMENSIONS : List String := ["city", "age", "gender"]

/-- Embeds `MEDIA_PRODUCT_METRICS` of `main.py`. -/
def MEDIA_PRODUCT_METRICS : List String :=
  ["reach", "likes", "shares", "comments", "saves", "views",
   "total_interactions"]

/-- A table handed to `load_to_bigquery`, tagged by which frame type it is. -/
inductive Table where
  | demo (rows : List DemoRowE)
  | media (rows : List MediaRow)
  | follows (rows : List FollowRow)
  | followers (rows : List FollowersRow)
  | ads (df : AdsDF)
deriving DecidableEq, Repr

/-- One `load_to_bigquery` call: destination table name and the frame
loaded (project and dataset are the same constants for every call and are
not tracked). -/
abbrev LoadEvent := String × Table

/-- The observable outcome of a run of `main`: the `load_to_bigquery` calls
performed, in order, and `some message` when the run raised (the message of
the `RuntimeError` / `ValueError`), `none` when it printed the final
success line. -/
abbrev RunOutcome := List LoadEvent × Option String

/-- The follows/unfollows block of `main` (source lines 83-101) after the
collector call: `if df_follows.empty:` only prints the skip notice, the
`else` only prints a preview, and the `load_to_bigquery(...,
"fact_instagram_follows_unfollows_day")` call sits after the whole
`if`/`else`, so it executes unconditionally — also on an empty frame. -/
def followsLoadEvents (df_follows : List FollowRow) : List LoadEvent :=
  [("fact_instagram_follows_unfollows_day", Table.follows df_follows)]

/-- The ads block of `main` (source lines 118-137): on an empty frame only
the skip notice is printed; the `load_to_bigquery(..., "fact_ads_daily")`
call is inside the `else`, so no load happens for an empty ads frame. -/
def adsLoadEvents (df_ads : AdsDF) : List LoadEvent :=
  if df_ads.rows.isEmpty then []
  else [("fact_ads_daily", Table.ads df_ads)]

/-- The body of `main` as a function of the five collector results, in
source order: abort on empty demographics, load; abort on empty media
frame, load; the follows block (`followsLoadEvents`); propagate a raise
from the followers collector, abort on an empty followers frame, load;
propagate a raise from the ads collector, then the ads block
(`adsLoadEvents`) and the success print. -/
def mainFromDfs (df_demo : List DemoRowE) (df_media : List MediaRow)
    (df_follows : List FollowRow)
    (df_followersE : Except String (List FollowersRow))
    (df_adsE : Except String AdsDF) : RunOutcome :=
  if df_demo.isEmpty then
    ([], some "Demographics veio vazio. Abortando para evitar carga ruim.")
  else
    let l1 := [(("fact_instagram_demographics" : String), Table.demo df_demo)]
    if df_media.isEmpty then
      (l1, some "Media product veio vazio. Abortando para evitar carga ruim.")
    else
      let l2 := l1 ++ [("fact_instagram_media_product_24h", Table.media df_media)]
      let l3 := l2 ++ followsLoadEvents df_follows
      match df_followersE with
      | .error e => (l3, some e)
      | .ok df_followers =>
        if df_followers.isEmpty then
          (l3, some "Followers snapshot veio vazio. Abortando para evitar carga ruim.")
        else
          let l4 := l3 ++ [("fact_instagram_account_daily", Table.followers df_followers)]
          match df_adsE with
          | .error e => (l4, some e)
          | .ok df_ads => (l4 ++ adsLoadEvents df_ads, none)

/-- The environment of a run: the run-start timestamp
(`pd.Timestamp.now(tz="UTC")` in `main`), today's date in the analytics
zone (`America/Sao_Paulo`) and in the ads zone (`America/Los_Angeles`),
the two zones themselves, the configured identifiers, and the timestamp a
collector would default to were it called without `extracted_at` (never
used by `main`, which always passes the run timestamp). -/
structure Env where
  runStart : TS
  todaySP : Int
  todayLA : Int
  tzSP : ZoneInfo
  tzLA : ZoneInfo
  igUserId : String
  adAccountId : Option String
  nowFallback : TS

/-- The external data a run consumes: one oracle per Metric Fetcher,
abstracting the HTTP responses (already flattened, as the fetchers in
`meta_client.py` flatten them). -/
structure Fetchers where
  demo : String → String → String → List DemoRec
  dayTotals : String → Option Int → Option Int → List MediaRec
  follows : Int → Int → List FollowRec
  followersResp : FollowersResp
  adInfo : String → AdInfo
  adsInsights : Int → Int → List AdsRec

/-- Embeds `main.main` (the name `main` itself is reserved by Lean): captures `extracted_at` once, runs the five collectors
with it (demographics is stamped by the Runner's column assignment, the
others receive `extracted_at` as an argument), and sequences the
load/abort logic of `mainFromDfs`.  The collectors are pure here, so
computing the frames up front and branching in `mainFromDfs` is
observationally the same as the source's interleaving of collector calls
with checks. -/
def main' (env : Env) (F : Fetchers) : RunOutcome :=
  let extracted_at := env.runStart
  let df_demo :=
    assignExtractedAt
      (collect_demographics DEMOGRAPHICS_METRICS TIMEFRAMES DIMENSIONS F.demo)
      extracted_at
  let df_media :=
    collect_day_media_product none none F.dayTotals
      (some MEDIA_PRODUCT_METRICS) env.todaySP env.tzSP env.nowFallback
      (some extracted_at)
  let df_follows :=
    collect_follows_unfollows_yesterday F.follows env.todaySP env.tzSP
      env.nowFallback (some extracted_at)
  let df_followersE :=
    collect_followers_snapshot_daily F.followersResp env.igUserId
      env.todaySP env.nowFallback (some extracted_at)
  let df_adsE :=
    collect_ads_spend_yesterday env.adAccountId F.adInfo F.adsInsights
      env.todayLA env.nowFallback (some extracted_at)
  mainFromDfs df_demo df_media df_follows df_followersE df_adsE

/-- Every row of the table carries `ts` in its `extracted_at` column. -/
def Table.stamped (t : Table) (ts : TS) : Prop :=
  match t with
  | .demo rows => ∀ r ∈ rows, r.extracted_at = ts
  | .media rows => ∀ r ∈ rows, r.extracted_at = ts
  | .follows rows => ∀ r ∈ rows, r.extracted_at = ts
  | .followers rows => ∀ r ∈ rows, r.extracted_at = ts
  | .ads df => ∀ r ∈ df.rows, r.extracted_at = ts

/-! ## Concrete instances used by witnesses -/

/-- A fixed-offset (UTC-like) zone: both lookups constantly 0. -/
def flatZone : ZoneInfo :=
  { offsetOfLocal := fun _ => 0, offsetOfUtc := fun _ => 0 }

/-- America/Los_Angeles around the 2025-03-09 spring-forward transition
(day number 20156): offset -28800 (PST) before local 02:00 of that day,
-25200 (PDT) after. -/
def dstSpringZone : ZoneInfo :=
  { offsetOfLocal := fun t => if t < 20156 * 86400 + 7200 then -28800 else -25200,
    offsetOfUtc := fun t =>
      if t < 20156 * 86400 + 7200 + 28800 then -28800 else -25200 }

/-- A concrete run environment. -/
def wEnv : Env :=
  { runStart := 5, todaySP := 10, todayLA := 20, tzSP := flatZone,
    tzLA := flatZone, igUserId := "ig", adAccountId := some "act_1",
    nowFallback := 99 }

/-- Concrete fetch results: one demographics record per triple, one media
record per metric, no follow/unfollow events, a followers count of 7, and
no ads delivery. -/
def wFetchers : Fetchers :=
  { demo := fun _ _ _ => [{ dimension_value := some "BR", value := some 3 }],
    dayTotals := fun _ _ _ => [{ media_product_type := some "REEL", value := some 2 }],
    follows := fun _ _ => [],
    followersResp := { followers_count := some 7 },
    adInfo := fun _ => { currency := some "BRL",
                         timezone_name := some "America/Sao_Paulo" },
    adsInsights := fun _ _ => [] }

/-- Variant of `wFetchers` whose demographics fetch returns no records. -/
def wFEmptyDemo : Fetchers := { wFetchers with demo := fun _ _ _ => [] }

/-- A concrete stamped demographics row. -/
def wDemoRowE : DemoRowE :=
  { row := { metric := "m", timeframe := "t", dimension := "d",
             dimension_value := none, value := none },
    extracted_at := 5 }

/-- A media fetch returning a single all-`None` record. -/
def wMediaFetch : String → Option Int → Option Int → List MediaRec :=
  fun _ _ _ => [{ media_product_type := none, value := none }]

/-- The row `collect_day_media_product (some 0) none wMediaFetch
(some ["reach"]) 7 flatZone 0 (some 1)` produces. -/
def wMediaRow0 : MediaRow :=
  { metric_date := 0, metric := "reach", period := "day",
    metric_type := "total_value", breakdown := "media_product_type",
    extracted_at := 1, since := some 0, until_ := none,
    dimension_value := none, value := none }

/-! ## Helper lemmas -/

theorem mem_tripleList {ms ts ds : List String} {m t d : String} :
    (m, t, d) ∈ tripleList ms ts ds ↔ m ∈ ms ∧ t ∈ ts ∧ d ∈ ds := by
  simp [tripleList, List.mem_product]

theorem nodup_tripleList {ms ts ds : List String} (hm : ms.Nodup)
    (ht : ts.Nodup) (hd : ds.Nodup) : (tripleList ms ts ds).Nodup :=
  hm.product (ht.product hd)

theorem demo_rows_stamped (rows : List DemoRow) (ts : TS) :
    Table.stamped (.demo (assignExtractedAt rows ts)) ts := by
  intro r hr
  simp only [assignExtractedAt, List.mem_map] at hr
  obtain ⟨r0, -, rfl⟩ := hr
  rfl

theorem media_rows_stamped (s u : Option Int)
    (fetch : String → Option Int → Option Int → List MediaRec)
    (mets : Option (List String)) (now : Int) (tz : ZoneInfo) (dea ts : TS) :
    Table.stamped (.media (collect_day_media_product s u fetch mets now tz dea
      (some ts))) ts := by
  intro r hr
  simp only [collect_day_media_product, List.mem_flatMap, List.mem_map] at hr
  obtain ⟨met, -, rec, -, rfl⟩ := hr
  rfl

theorem follows_rows_stamped (fetch : Int → Int → List FollowRec)
    (now : Int) (tz : ZoneInfo) (dea ts : TS) :
    Table.stamped (.follows (collect_follows_unfollows_yesterday fetch now tz
      dea (some ts))) ts := by
  intro r hr
  simp only [collect_follows_unfollows_yesterday, List.mem_map] at hr
  obtain ⟨rec, -, rfl⟩ := hr
  rfl

theorem followers_rows_stamped (resp : FollowersResp) (igid : String)
    (now : Int) (dea ts : TS) (rows : List FollowersRow)
    (h : collect_followers_snapshot_daily resp igid now dea (some ts) = .ok rows) :
    Table.stamped (.followers rows) ts := by
  intro r hr
  simp only [collect_followers_snapshot_daily, Except.map] at h
  cases hresp : get_followers_count resp with
  | error e => rw [hresp] at h; cases h
  | ok v =>
    rw [hresp] at h
    cases h
    simp only [List.mem_singleton] at hr
    subst hr
    rfl

theorem ads_rows_stamped (acct : Option String) (infoF : String → AdInfo)
    (insF : Int → Int → List AdsRec) (now : Int) (dea ts : TS) (df : AdsDF)
    (h : collect_ads_spend_yesterday acct infoF insF now dea (some ts) = .ok df) :
    Table.stamped (.ads df) ts := by
  intro r hr
  simp only [collect_ads_spend_yesterday] at h
  cases acct with
  | none => cases h
  | some a =>
    by_cases he : a.isEmpty
    · simp [he] at h
    · simp only [he, if_false] at h
      by_cases hd : (insF (now - 1) now).isEmpty
      · simp only [hd, if_true] at h
        cases h
        simp at hr
      · simp only [hd, if_false] at h
        cases h
        simp only [List.mem_map] at hr
        obtain ⟨rec, -, rfl⟩ := hr
        rfl

theorem mainFromDfs_stamped (ts : TS) (dfD : List DemoRowE)
    (dfM : List MediaRow) (dfF : List FollowRow)
    (dfFoE : Except String (List FollowersRow)) (dfAE : Except String AdsDF)
    (hD : Table.stamped (.demo dfD) ts) (hM : Table.stamped (.media dfM) ts)
    (hF : Table.stamped (.follows dfF) ts)
    (hFo : ∀ x, dfFoE = .ok x → Table.stamped (.followers x) ts)
    (hA : ∀ x, dfAE = .ok x → Table.stamped (.ads x) ts) :
    ∀ le ∈ (mainFromDfs dfD dfM dfF dfFoE dfAE).1, Table.stamped le.2 ts := by
  intro le hle
  simp only [mainFromDfs, followsLoadEvents, adsLoadEvents] at hle
  by_cases h1 : dfD.isEmpty
  · simp [h1] at hle
  · by_cases h2 : dfM.isEmpty
    · simp [h1, h2] at hle
      subst hle; exact hD
    · cases dfFoE with
      | error e =>
        simp [h1, h2] at hle
        rcases hle with rfl | rfl | rfl
        · exact hD
        · exact hM
        · exact hF
      | ok dfFo =>
        by_cases h3 : dfFo.isEmpty
        · simp [h1, h2, h3] at hle
          rcases hle with rfl | rfl | rfl
          · exact hD
          · exact hM
          · exact hF
        · cases dfAE with
          | error e =>
            simp [h1, h2, h3] at hle
            rcases hle with rfl | rfl | rfl | rfl
            · exact hD
            · exact hM
            · exact hF
            · exact hFo dfFo rfl
          | ok dfA =>
            by_cases h4 : dfA.rows.isEmpty
            · simp [h1, h2, h3, h4] at hle
              rcases hle with rfl | rfl | rfl | rfl
              · exact hD
              · exact hM
              · exact hF
              · exact hFo dfFo rfl
            · simp [h1, h2, h3, h4] at hle
              rcases hle with rfl | rfl | rfl | rfl | rfl
              · exact hD
              · exact hM
              · exact hF
              · exact hFo dfFo rfl
              · exact hA dfA rfl

/-! ## Claim theorems -/

/-- C2 (amended).  For every date `d` and zone `tz`, `_day_window_ts`
returns `since` equal to the epoch-seconds of local midnight of `d` and
`until` equal to the epoch-seconds of local midnight of `d + 1`, so the
pair denotes the half-open window [midnight of d, midnight of d + 1) in the
zone; `until = since + 86400` holds exactly when the zone's UTC offset at
the two midnights coincides (every day without a DST transition).  The
original claim's unconditional `until = since + 86400` fails on
DST-transition days (see `day_window_dst_counterexample`). -/
theorem day_window_ts_spec (d : Int) (tz : ZoneInfo) :
    (_day_window_ts d tz).1 = epochOfLocalMidnight d tz ∧
    (_day_window_ts d tz).2 = epochOfLocalMidnight (d + 1) tz ∧
    (tz.offsetOfLocal (d * 86400) = tz.offsetOfLocal ((d + 1) * 86400) →
      (_day_window_ts d tz).2 = (_day_window_ts d tz).1 + 86400) := by
  refine ⟨rfl, rfl, fun h => ?_⟩
  simp only [_day_window_ts]
  rw [← h]
  ring

/-- Witness for `day_window_ts_spec` at `d = 3` in a fixed-offset zone,
where the offsets at the two midnights trivially agree. -/
theorem day_window_ts_spec_witness :
    (_day_window_ts 3 flatZone).2 = (_day_window_ts 3 flatZone).1 + 86400 :=
  (day_window_ts_spec 3 flatZone).2.2 rfl

/-- C2, counterexample to the claim as stated: on the 2025-03-09
spring-forward day of an America/Los_Angeles-like zone the window spans
82800 seconds, not 86400. -/
theorem day_window_dst_counterexample :
    (_day_window_ts 20156 dstSpringZone).2 -
        (_day_window_ts 20156 dstSpringZone).1 = 82800 ∧
    ¬ ((_day_window_ts 20156 dstSpringZone).2 =
        (_day_window_ts 20156 dstSpringZone).1 + 86400) := by
  constructor
  · decide
  · decide

/-- C10.  `get_day_totals_by_media_product` tests `since` for truthiness
(`if since:`), so `since = 0` is omitted from the request parameters while
any non-zero `since` is forwarded; `collect_day_media_product` tests
`since is not None`, so with `since = 0` it still computes `metric_date`
from timestamp 0. -/
theorem since_zero_omitted_but_date_computed :
    (∀ mn u pt, "since" ∉ (dayTotalsRequestParams mn (some 0) u pt).map Prod.fst) ∧
    (∀ mn (v : Int) u pt, v ≠ 0 →
      ("since", toString v) ∈ dayTotalsRequestParams mn (some v) u pt) ∧
    (∀ u fetch mets now tz dea ea r,
      r ∈ collect_day_media_product (some 0) u fetch mets now tz dea ea →
      r.metric_date = dateFromTimestamp 0 tz) := by
  refine ⟨?_, ?_, ?_⟩
  · intro mn u pt
    simp only [dayTotalsRequestParams, pyTruthy]
    have : ((0 : Int) != 0) = false := by decide
    simp only [this, if_false]
    cases hu : (match u with | none => false | some v => v != 0) <;> simp
  · intro mn v u pt hv
    have : (v != 0) = true := by simpa using hv
    simp only [dayTotalsRequestParams, pyTruthy, this, if_true]
    cases hu : (match u with | none => false | some w => w != 0) <;> simp
  · intro u fetch mets now tz dea ea r hr
    simp only [collect_day_media_product, List.mem_flatMap, List.mem_map] at hr
    obtain ⟨met, -, rec, -, rfl⟩ := hr
    rfl

/-- Witness for `since_zero_omitted_but_date_computed` at concrete
arguments: with `since = 0` the request omits the key and the produced
row's `metric_date` is the date of timestamp 0; with `since = 5` the key
is present. -/
theorem since_zero_witness :
    "since" ∉ (dayTotalsRequestParams "reach" (some 0) none "tok").map Prod.fst ∧
    ("since", toString (5 : Int)) ∈ dayTotalsRequestParams "reach" (some 5) none "tok" ∧
    wMediaRow0.metric_date = dateFromTimestamp 0 flatZone :=
  ⟨since_zero_omitted_but_date_computed.1 "reach" none "tok",
   since_zero_omitted_but_date_computed.2.1 "reach" 5 none "tok" (by decide),
   since_zero_omitted_but_date_computed.2.2 none wMediaFetch (some ["reach"])
     7 flatZone 0 (some 1) wMediaRow0 (by decide)⟩

/-- C4.  When the follow/unfollow fetch returns `[]` for yesterday's
window, `collect_follows_unfollows_yesterday` returns exactly the two
zero-valued rows, `FOLLOWER` first, both stamped with yesterday's
`metric_date` and yesterday's `since`/`until` window boundaries. -/
theorem collect_follows_empty_two_zero_rows
    (fetch : Int → Int → List FollowRec) (now : Int) (tz : ZoneInfo)
    (dea : TS) (ea : Option TS)
    (h : fetch (_day_window_ts (now - 1) tz).1 (_day_window_ts (now - 1) tz).2 = []) :
    collect_follows_unfollows_yesterday fetch now tz dea ea =
      [{ metric_date := now - 1, metric := "follows_and_unfollows",
         follow_type := some "FOLLOWER", value := some 0,
         since := (_day_window_ts (now - 1) tz).1,
         until_ := (_day_window_ts (now - 1) tz).2,
         extracted_at := ea.getD dea },
       { metric_date := now - 1, metric := "follows_and_unfollows",
         follow_type := some "NON_FOLLOWER", value := some 0,
         since := (_day_window_ts (now - 1) tz).1,
         until_ := (_day_window_ts (now - 1) tz).2,
         extracted_at := ea.getD dea }] := by
  simp [collect_follows_unfollows_yesterday, h]

/-- Witness for `collect_follows_empty_two_zero_rows` with a fetch that
returns no records, `now = 10` and a fixed-offset zone: the window is
[777600, 864000) and the two zero rows carry it. -/
theorem collect_follows_empty_witness :
    collect_follows_unfollows_yesterday (fun _ _ => []) 10 flatZone 0 (some 5) =
      [{ metric_date := 9, metric := "follows_and_unfollows",
         follow_type := some "FOLLOWER", value := some 0,
         since := 777600, until_ := 864000, extracted_at := 5 },
       { metric_date := 9, metric := "follows_and_unfollows",
         follow_type := some "NON_FOLLOWER", value := some 0,
         since := 777600, until_ := 864000, extracted_at := 5 }] := by
  have h := collect_follows_empty_two_zero_rows (fun _ _ => []) 10 flatZone 0
    (some 5) rfl
  simpa using h

/-- C9.  The table returned by `collect_follows_unfollows_yesterday` is
never empty: its row count is the fetch's record count when the fetch
returns records, and 2 (the synthesized zero rows) when it returns none.
Hence the Boolean the Runner's `if df_follows.empty:` branch inspects is
always `false`: that branch can never be taken; the last conjunct states
this for exactly the arguments `main'` passes. -/
theorem follows_never_empty (fetch : Int → Int → List FollowRec) (now : Int)
    (tz : ZoneInfo) (dea : TS) (ea : Option TS) (env : Env) (F : Fetchers) :
    (collect_follows_unfollows_yesterday fetch now tz dea ea).length =
      (if (fetch (_day_window_ts (now - 1) tz).1
            (_day_window_ts (now - 1) tz).2).isEmpty
       then 2
       else (fetch (_day_window_ts (now - 1) tz).1
              (_day_window_ts (now - 1) tz).2).length) ∧
    (collect_follows_unfollows_yesterday fetch now tz dea ea).isEmpty = false ∧
    (collect_follows_unfollows_yesterday F.follows env.todaySP env.tzSP
      env.nowFallback (some env.runStart)).isEmpty = false := by
  refine ⟨?_, ?_, ?_⟩
  · by_cases h : (fetch (_day_window_ts (now - 1) tz).1
        (_day_window_ts (now - 1) tz).2).isEmpty
    · simp [collect_follows_unfollows_yesterday, h]
    · simp [collect_follows_unfollows_yesterday, h]
  · by_cases h : (fetch (_day_window_ts (now - 1) tz).1
        (_day_window_ts (now - 1) tz).2).isEmpty
    · simp [collect_follows_unfollows_yesterday, h]
    · simp only [collect_follows_unfollows_yesterday, h, if_false,
        List.isEmpty_eq_false, ne_eq, List.map_eq_nil_iff]
      exact fun hl => by simp only [Bool.false_eq_true, if_false] at hl; simp [hl] at h
  · by_cases h : (F.follows (_day_window_ts (env.todaySP - 1) env.tzSP).1
        (_day_window_ts (env.todaySP - 1) env.tzSP).2).isEmpty
    · simp [collect_follows_unfollows_yesterday, h]
    · simp only [collect_follows_unfollows_yesterday, h, if_false,
        List.isEmpty_eq_false, ne_eq, List.map_eq_nil_iff]
      exact fun hl => by simp only [Bool.false_eq_true, if_false] at hl; simp [hl] at h

theorem beq_triple_eq_decide (p q : String × String × String) :
    (p == q) = decide (p = q) := by
  by_cases h : p = q
  · subst h; simp
  · simp [h]

theorem count_triple_eq_decEq (a : String × String × String)
    (l : List (String × String × String)) :
    l.count a = @List.count _ instBEqOfDecidableEq a l := by
  induction l with
  | nil => rfl
  | cons x xs ih =>
    simp only [List.count_cons]
    rw [ih, beq_triple_eq_decide]
    rfl

/-- C3.  `collect_demographics` iterates the full cross-product
`tripleList ms ts ds` (calling the demographics fetch on each triple of the
iteration list, which for duplicate-free configured lists contains every
(metric, timeframe, dimension) triple exactly once); its output row count
is the sum over the triples of the fetch's record count, and every output
row carries the metric, timeframe and dimension of the triple it came
from, paired with one fetched record. -/
theorem collect_demographics_spec (ms ts ds : List String)
    (fetch : String → String → String → List DemoRec) (m t d : String) :
    (collect_demographics ms ts ds fetch).length =
      ((tripleList ms ts ds).map fun p => (fetch p.1 p.2.1 p.2.2).length).sum ∧
    (ms.Nodup → ts.Nodup → ds.Nodup → m ∈ ms → t ∈ ts → d ∈ ds →
      (tripleList ms ts ds).count (m, t, d) = 1) ∧
    (∀ row ∈ collect_demographics ms ts ds fetch,
      row.metric ∈ ms ∧ row.timeframe ∈ ts ∧ row.dimension ∈ ds ∧
      ∃ r ∈ fetch row.metric row.timeframe row.dimension,
        row.dimension_value = r.dimension_value ∧ row.value = r.value) := by
  refine ⟨?_, ?_, ?_⟩
  · simp [collect_demographics, List.length_flatMap, Function.comp_def]
  · intro hm ht hd hm' ht' hd'
    rw [count_triple_eq_decEq]
    exact List.count_eq_one_of_mem (nodup_tripleList hm ht hd)
      (mem_tripleList.mpr ⟨hm', ht', hd'⟩)
  · intro row hrow
    simp only [collect_demographics, List.mem_flatMap, List.mem_map] at hrow
    obtain ⟨p, hp, r, hr, rfl⟩ := hrow
    obtain ⟨pm, pt, pd⟩ := p
    obtain ⟨h1, h2, h3⟩ := mem_tripleList.mp hp
    exact ⟨h1, h2, h3, r, hr, rfl, rfl⟩

/-- Witness for `collect_demographics_spec` at concrete lists and a
single-record fetch: the triple ("m1", "t1", "d1") occurs exactly once in
the cross-product and the concrete output row is annotated with its
triple. -/
theorem collect_demographics_witness :
    (tripleList ["m1", "m2"] ["t1"] ["d1"]).count ("m1", "t1", "d1") = 1 ∧
    ({ metric := "m1", timeframe := "t1", dimension := "d1",
       dimension_value := some "x", value := some 1 } : DemoRow).metric ∈
      ["m1", "m2"] :=
  have h := collect_demographics_spec ["m1", "m2"] ["t1"] ["d1"]
    (fun _ _ _ => [{ dimension_value := some "x", value := some 1 }]) "m1" "t1" "d1"
  ⟨h.2.1 (by decide) (by decide) (by decide) (by decide) (by decide) (by decide),
   (h.2.2 { metric := "m1", timeframe := "t1", dimension := "d1",
            dimension_value := some "x", value := some 1 } (by decide)).1⟩

/-- C6.  `get_followers_count` raises a shape error exactly when the
`followers_count` field is absent; on a successful fetch
`collect_followers_snapshot_daily` returns exactly one row, stamped with
today's date in the configured zone. -/
theorem followers_snapshot_spec (resp : FollowersResp) (igid : String)
    (now : Int) (dea : TS) (ea : Option TS) :
    (resp.followers_count = none →
      get_followers_count resp = .error "followers_count não veio na resposta") ∧
    (∀ v, resp.followers_count = some v →
      collect_followers_snapshot_daily resp igid now dea ea =
        .ok [{ metric_date := now, ig_user_id := igid, followers_count := v,
               extracted_at := ea.getD dea }]) ∧
    (∀ rows, collect_followers_snapshot_daily resp igid now dea ea = .ok rows →
      rows.length = 1 ∧ ∀ r ∈ rows, r.metric_date = now) := by
  refine ⟨fun h => by simp [get_followers_count, h],
    fun v h => by
      simp [collect_followers_snapshot_daily, get_followers_count, h, Except.map],
    fun rows h => ?_⟩
  cases hfc : resp.followers_count with
  | none =>
    simp [collect_followers_snapshot_daily, get_followers_count, hfc,
      Except.map] at h
  | some v =>
    simp only [collect_followers_snapshot_daily, get_followers_count, hfc,
      Except.map, Except.ok.injEq] at h
    subst h
    simp

/-- Witness for `followers_snapshot_spec`: a response without the field
errors; a response with count 7 yields the single today-stamped row. -/
theorem followers_snapshot_witness :
    get_followers_count { followers_count := none } =
      .error "followers_count não veio na resposta" ∧
    collect_followers_snapshot_daily { followers_count := some 7 } "ig" 10 0
        (some 5) =
      .ok [{ metric_date := 10, ig_user_id := "ig", followers_count := 7,
             extracted_at := 5 }] :=
  ⟨(followers_snapshot_spec { followers_count := none } "x" 0 0 none).1 rfl,
   (followers_snapshot_spec { followers_count := some 7 } "ig" 10 0
     (some 5)).2.1 7 rfl⟩

/-- C5.  On an empty ads-insights result `collect_ads_spend_yesterday`
returns the explicitly empty frame whose columns are exactly the nine ads
columns, and the Runner (here its post-collect body `mainFromDfs`, the
earlier frames being non-empty and the followers collector succeeding)
performs exactly the four earlier loads — no `fact_ads_daily` load — and
finishes with success (`none` in the error position). -/
theorem ads_empty_schema_and_runner_continues :
    (∀ (acct : String) infoF insF now dea ea, acct.isEmpty = false →
      insF (now - 1) now = [] →
      collect_ads_spend_yesterday (some acct) infoF insF now dea ea =
        .ok { columns := adsColumns, rows := [] }) ∧
    (∀ dfD dfM dfF dfFo, dfD ≠ [] → dfM ≠ [] → dfFo ≠ [] →
      mainFromDfs dfD dfM dfF (.ok dfFo)
          (.ok { columns := adsColumns, rows := [] }) =
        ([("fact_instagram_demographics", Table.demo dfD),
          ("fact_instagram_media_product_24h", Table.media dfM),
          ("fact_instagram_follows_unfollows_day", Table.follows dfF),
          ("fact_instagram_account_daily", Table.followers dfFo)], none)) := by
  constructor
  · intro acct infoF insF now dea ea hacct hins
    simp [collect_ads_spend_yesterday, hacct, hins]
  · intro dfD dfM dfF dfFo hD hM hFo
    simp [mainFromDfs, followsLoadEvents, adsLoadEvents, hD, hM, hFo]

/-- Witness for `ads_empty_schema_and_runner_continues` at concrete
arguments: an account id "act_1", no insight records, and concrete
non-empty earlier frames. -/
theorem ads_empty_witness :
    collect_ads_spend_yesterday (some "act_1")
        (fun _ => { currency := some "BRL", timezone_name := some "LA" })
        (fun _ _ => []) 20 0 (some 5) =
      .ok { columns := adsColumns, rows := [] } ∧
    mainFromDfs [wDemoRowE] [wMediaRow0] []
        (.ok [{ metric_date := 10, ig_user_id := "ig", followers_count := 7,
                extracted_at := 5 }])
        (.ok { columns := adsColumns, rows := [] }) =
      ([("fact_instagram_demographics", Table.demo [wDemoRowE]),
        ("fact_instagram_media_product_24h", Table.media [wMediaRow0]),
        ("fact_instagram_follows_unfollows_day", Table.follows []),
        ("fact_instagram_account_daily", Table.followers
          [{ metric_date := 10, ig_user_id := "ig", followers_count := 7,
             extracted_at := 5 }])], none) :=
  ⟨ads_empty_schema_and_runner_continues.1 "act_1"
     (fun _ => { currency := some "BRL", timezone_name := some "LA" })
     (fun _ _ => []) 20 0 (some 5) (by decide) rfl,
   ads_empty_schema_and_runner_continues.2 [wDemoRowE] [wMediaRow0] []
     [{ metric_date := 10, ig_user_id := "ig", followers_count := 7,
        extracted_at := 5 }] (by decide) (by decide) (by decide)⟩

/-- C7.  An empty demographics result aborts the run with no load at all,
for every environment and every collection of later fetch results (so
nothing after the check is attempted); an empty media frame aborts after
only the demographics load; an empty followers frame (at the Runner's
check — the followers collector itself never returns one, see
`followers_snapshot_spec`) aborts after the demographics, media and
follows loads, i.e. before the followers and ads steps. -/
theorem empty_required_collector_aborts :
    (∀ env F,
      collect_demographics DEMOGRAPHICS_METRICS TIMEFRAMES DIMENSIONS F.demo = [] →
      main' env F =
        ([], some "Demographics veio vazio. Abortando para evitar carga ruim.")) ∧
    (∀ dfD dfM dfF dfFoE dfAE, dfD ≠ [] → dfM = [] →
      mainFromDfs dfD dfM dfF dfFoE dfAE =
        ([("fact_instagram_demographics", Table.demo dfD)],
         some "Media product veio vazio. Abortando para evitar carga ruim.")) ∧
    (∀ dfD dfM dfF dfAE, dfD ≠ [] → dfM ≠ [] →
      mainFromDfs dfD dfM dfF (.ok []) dfAE =
        ([("fact_instagram_demographics", Table.demo dfD),
          ("fact_instagram_media_product_24h", Table.media dfM),
          ("fact_instagram_follows_unfollows_day", Table.follows dfF)],
         some "Followers snapshot veio vazio. Abortando para evitar carga ruim.")) := by
  refine ⟨?_, ?_, ?_⟩
  · intro env F h
    simp [main', h, assignExtractedAt, mainFromDfs]
  · intro dfD dfM dfF dfFoE dfAE hD hM
    subst hM
    simp [mainFromDfs, hD]
  · intro dfD dfM dfF dfAE hD hM
    simp [mainFromDfs, followsLoadEvents, hD, hM]

/-- Witness for `empty_required_collector_aborts`: a run whose
demographics fetch returns nothing aborts with no load; concrete
instantiations of the media-empty and followers-empty aborts. -/
theorem empty_collector_witness :
    main' wEnv wFEmptyDemo =
      ([], some "Demographics veio vazio. Abortando para evitar carga ruim.") ∧
    mainFromDfs [wDemoRowE] [] [] (.ok []) (.ok { columns := adsColumns, rows := [] }) =
      ([("fact_instagram_demographics", Table.demo [wDemoRowE])],
       some "Media product veio vazio. Abortando para evitar carga ruim.") ∧
    mainFromDfs [wDemoRowE] [wMediaRow0] [] (.ok [])
        (.ok { columns := adsColumns, rows := [] }) =
      ([("fact_instagram_demographics", Table.demo [wDemoRowE]),
        ("fact_instagram_media_product_24h", Table.media [wMediaRow0]),
        ("fact_instagram_follows_unfollows_day", Table.follows [])],
       some "Followers snapshot veio vazio. Abortando para evitar carga ruim.") :=
  ⟨empty_required_collector_aborts.1 wEnv wFEmptyDemo rfl,
   empty_required_collector_aborts.2.1 [wDemoRowE] [] [] (.ok [])
     (.ok { columns := adsColumns, rows := [] }) (by decide) rfl,
   empty_required_collector_aborts.2.2 [wDemoRowE] [wMediaRow0] []
     (.ok { columns := adsColumns, rows := [] }) (by decide) (by decide)⟩

/-- C1 (code bug).  In the Runner's follows/unfollows block the
`load_to_bigquery` call sits after the `if df_follows.empty:` skip-notice /
preview `if`/`else`, so the Loader is called even for a zero-row frame —
the code's own log line says the load is skipped, but the load happens
regardless.  The ads block, by contrast, does skip the Loader on an empty
frame, as the claim states. -/
theorem runner_follows_load_called_on_empty :
    followsLoadEvents [] =
      [("fact_instagram_follows_unfollows_day", Table.follows [])] ∧
    adsLoadEvents { columns := adsColumns, rows := [] } = [] :=
  ⟨rfl, rfl⟩

/-- C8.  Every run of the Runner stamps every row of every loaded table
with the single run-start timestamp `env.runStart`: the Runner assigns it
to the demographics frame and passes it as `extracted_at` to every other
Collector, so no per-Collector default timestamp is ever used. -/
theorem extracted_at_single_timestamp (env : Env) (F : Fetchers) :
    ∀ le ∈ (main' env F).1, Table.stamped le.2 env.runStart := by
  intro le hle
  simp only [main'] at hle
  exact mainFromDfs_stamped env.runStart _ _ _ _ _
    (demo_rows_stamped _ _)
    (media_rows_stamped none none F.dayTotals (some MEDIA_PRODUCT_METRICS)
      env.todaySP env.tzSP env.nowFallback env.runStart)
    (follows_rows_stamped F.follows env.todaySP env.tzSP env.nowFallback
      env.runStart)
    (fun x hx => followers_rows_stamped F.followersResp env.igUserId
      env.todaySP env.nowFallback env.runStart x hx)
    (fun x hx => ads_rows_stamped env.adAccountId F.adInfo F.adsInsights
      env.todayLA env.nowFallback env.runStart x hx)
    le hle

/-- Witness for `extracted_at_single_timestamp`: in the concrete run
`main' wEnv wFetchers` the followers table is loaded and its row carries
the run-start timestamp 5. -/
theorem extracted_at_witness :
    Table.stamped
      (Table.followers
        [{ metric_date := 10, ig_user_id := "ig", followers_count := 7,
           extracted_at := 5 }]) 5 :=
  extracted_at_single_timestamp wEnv wFetchers
    ("fact_instagram_account_daily",
     Table.followers
       [{ metric_date := 10, ig_user_id := "ig", followers_count := 7,
          extracted_at := 5 }]) (by decide)
